import Mathlib

/-!
# SlowFS scheduler core: a shallow embedding

Shallow embedding of the SlowFS device model (package `slowfs/scheduler`,
file `devicecontext.go`, plus the fuse adapter `fuselayer.go`).

Representation choices:
* Wall-clock instants (`time.Time`) and durations (`time.Duration`) are
  integers counting nanoseconds (`Int`), matching Go's `int64` nanosecond
  durations; `t.Add d` is `t + d`, `a.Sub b` is `a - b`, `a.After b` is
  `b < a`.
* Byte counts (`units.NumBytes`, whose source is not in this tree) are
  modelled from the spec: "a non-negative integer measured in bytes",
  hence `Nat`.
* The rolling 30-second statistics counters and the logger of
  `deviceContext` are omitted: the spec marks them "purely operational;
  not part of correctness", they read the real clock (`time.Now`), and no
  modelled behaviour depends on them.
-/

/-- Request kinds, from `request.go` (`ReadRequest` .. `MetadataRequest`). -/
inductive RequestType where
  | ReadRequest
  | WriteRequest
  | OpenRequest
  | CloseRequest
  | FsyncRequest
  | AllocateRequest
  | MetadataRequest
deriving DecidableEq, Repr

/-- A request, from `request.go`: kind, timestamp, path, start offset, size.
(The Go field is named `Type`, a reserved word in Lean; here `Kind`.) -/
structure Request where
  Kind : RequestType
  Timestamp : Int
  Path : String
  Start : Nat
  Size : Nat
deriving DecidableEq, Repr

/-- Fsync strategies of the device config (spec §3: `none`, `dumb`,
`writeback`; Go names from `devicecontext.go`'s uses:
`slowfs.DumbFsync`, `slowfs.WriteBackCachedFsync`). -/
inductive FsyncStrategy where
  | NoFsync
  | DumbFsync
  | WriteBackCachedFsync
deriving DecidableEq, Repr

/-- Write strategies of the device config (spec §3: `fast`, `simulate`;
Go names `slowfs.FastWrite`, `slowfs.SimulateWrite`). -/
inductive WriteStrategy where
  | FastWrite
  | SimulateWrite
deriving DecidableEq, Repr

/-- Modelled from the spec: the `slowfs.DeviceConfig` source is not in this
tree; fields follow spec §3 (seek window in bytes, durations in
nanoseconds, positive bandwidths in bytes per second, the two strategies).
The `name` and `requestReorderMaxDelay` fields are never consulted by the
scheduler core and are omitted. -/
structure DeviceConfig where
  SeekWindow : Nat
  SeekTime : Int
  ReadBytesPerSecond : Nat
  WriteBytesPerSecond : Nat
  AllocateBytesPerSecond : Nat
  MetadataOpTime : Int
  FsyncStrategy : FsyncStrategy
  WriteStrategy : WriteStrategy
deriving DecidableEq, Repr

/-- Modelled from the spec: `DeviceConfig.ReadTime` (source not in this
tree); spec §4.3: READ costs `size / readBytesPerSecond` seconds, i.e.
`size * 10^9 / readBytesPerSecond` nanoseconds. -/
def DeviceConfig.ReadTime (cfg : DeviceConfig) (size : Nat) : Int :=
  ((size * 1000000000) / cfg.ReadBytesPerSecond : Nat)

/-- Modelled from the spec: `DeviceConfig.WriteTime` (source not in this
tree); spec §4.3: `size / writeBytesPerSecond` seconds. -/
def DeviceConfig.WriteTime (cfg : DeviceConfig) (size : Nat) : Int :=
  ((size * 1000000000) / cfg.WriteBytesPerSecond : Nat)

/-- Modelled from the spec: `DeviceConfig.AllocateTime` (source not in this
tree); spec §4.3: `size / allocateBytesPerSecond` seconds. -/
def DeviceConfig.AllocateTime (cfg : DeviceConfig) (size : Nat) : Int :=
  ((size * 1000000000) / cfg.AllocateBytesPerSecond : Nat)

/-- The write-back cache state: per-path dirty byte counts, as an
association list (Go: `map[string]units.NumBytes`). An absent key reads
as zero dirty bytes. -/
abbrev WriteBackCache := List (String × Nat)

namespace WriteBackCache

/-- Dirty bytes recorded for `p`; 0 when absent (Go map read default). -/
def getUnwrittenBytes (c : WriteBackCache) (p : String) : Nat :=
  match c with
  | [] => 0
  | (q, d) :: rest => if q = p then d else getUnwrittenBytes rest p

/-- Modelled from the spec: `writeBackCache.write` (source not in this
tree); spec §4.4: `dirtyBytes[path] += n`, entry created on first write. -/
def write (c : WriteBackCache) (p : String) (n : Nat) : WriteBackCache :=
  match c with
  | [] => [(p, n)]
  | (q, d) :: rest => if q = p then (q, d + n) :: rest else (q, d) :: write rest p n

/-- Modelled from the spec: `writeBackCache.close` (source not in this
tree); spec §4.4: "remove the entry unconditionally". -/
def close (c : WriteBackCache) (p : String) : WriteBackCache :=
  match c with
  | [] => []
  | (q, d) :: rest => if q = p then close rest p else (q, d) :: close rest p

/-- Modelled from the spec: `writeBackCache.writeBackFile` (source not in
this tree); spec §4.4: "set to zero". -/
def writeBackFile (c : WriteBackCache) (p : String) : WriteBackCache :=
  match c with
  | [] => []
  | (q, d) :: rest =>
    if q = p then (q, 0) :: rest else (q, d) :: writeBackFile rest p

/-- Insert an entry into a path-sorted list (helper for the deterministic
drain order of spec §4.4). -/
def insertByPath (e : String × Nat) (c : WriteBackCache) : WriteBackCache :=
  match c with
  | [] => [e]
  | f :: rest => if e.1 < f.1 then e :: f :: rest else f :: insertByPath e rest

/-- Sort cache entries by path (spec §4.4: "deterministic iteration order
(sorted by path)"). -/
def sortByPath (c : WriteBackCache) : WriteBackCache :=
  match c with
  | [] => []
  | e :: rest => insertByPath e (sortByPath rest)

/-- Drain up to `remaining` bytes from the entries in order: each path
receives `min(dirtyBytes[path], remaining)` (spec §4.4). -/
def drainList (remaining : Nat) (c : WriteBackCache) : WriteBackCache :=
  match c with
  | [] => []
  | (q, d) :: rest =>
    let take := min d remaining
    (q, d - take) :: drainList (remaining - take) rest

/-- Modelled from the spec: `writeBackCache.writeBack` (source not in this
tree); spec §4.4: `drainable = writeBytesPerSecond × budget`, distributed
across paths sorted by path; surplus time is discarded. `budget` is a
positive duration in nanoseconds. -/
def writeBack (c : WriteBackCache) (cfg : DeviceConfig) (budget : Int) : WriteBackCache :=
  drainList (cfg.WriteBytesPerSecond * budget.toNat / 1000000000) (sortByPath c)

end WriteBackCache

/-- Device context state, from `devicecontext.go` (statistics counters and
logger omitted, see the file header). `writeBackCache` is `none` exactly
when the Go pointer is nil. -/
structure DeviceContext where
  deviceConfig : DeviceConfig
  firstUnseenByte : Nat
  lastAccessedFile : String
  busyUntil : Int
  writeBackCache : Option WriteBackCache
deriving DecidableEq, Repr

/-- `newDeviceContext` from `devicecontext.go`: the cache is allocated
exactly when the fsync strategy is `WriteBackCachedFsync`; all other
state starts zero/empty. -/
def newDeviceContext (cfg : DeviceConfig) : DeviceContext :=
  { deviceConfig := cfg
    firstUnseenByte := 0
    lastAccessedFile := ""
    busyUntil := 0
    writeBackCache :=
      if cfg.FsyncStrategy = FsyncStrategy.WriteBackCachedFsync then some [] else none }

/-- `latestTime` from `devicecontext.go`: `if a.After(b) { return a };
return b`. -/
def latestTime (a b : Int) : Int :=
  if b < a then a else b

/-- `computeSeekTime` from `devicecontext.go`: seek when accessing a
different file, going backwards, or jumping at least `SeekWindow` bytes
ahead of `firstUnseenByte`; else zero.  (Backward moves make the Go
byte-count subtraction non-positive; in `Nat` it truncates to 0, which
can only flip the third disjunct to true when `SeekWindow = 0`, a case in
which the overall disjunction is unchanged.) -/
def computeSeekTime (dc : DeviceContext) (req : Request) : Int :=
  if dc.lastAccessedFile ≠ req.Path ∨ dc.firstUnseenByte > req.Start ∨
      req.Start - dc.firstUnseenByte ≥ dc.deviceConfig.SeekWindow then
    dc.deviceConfig.SeekTime
  else
    0

/-- The `requestDuration` local of `computeTime` in `devicecontext.go`:
the per-kind duration switch. The `default` branch (reached e.g. by
`OpenRequest`) only logs, leaving the duration at 0. -/
def requestDuration (dc : DeviceContext) (req : Request) : Int :=
  match req.Kind with
  | RequestType.MetadataRequest => dc.deviceConfig.MetadataOpTime
  | RequestType.CloseRequest => dc.deviceConfig.MetadataOpTime
  | RequestType.AllocateRequest =>
    computeSeekTime dc req + dc.deviceConfig.AllocateTime req.Size
  | RequestType.ReadRequest =>
    computeSeekTime dc req + dc.deviceConfig.ReadTime req.Size
  | RequestType.WriteRequest =>
    match dc.deviceConfig.WriteStrategy with
    | WriteStrategy.FastWrite => 0
    | WriteStrategy.SimulateWrite =>
      computeSeekTime dc req + dc.deviceConfig.WriteTime req.Size
  | RequestType.FsyncRequest =>
    match dc.deviceConfig.FsyncStrategy with
    | FsyncStrategy.NoFsync => 0
    | FsyncStrategy.DumbFsync => dc.deviceConfig.SeekTime * 10
    | FsyncStrategy.WriteBackCachedFsync =>
      dc.deviceConfig.SeekTime +
        dc.deviceConfig.WriteTime
          ((dc.writeBackCache.getD []).getUnwrittenBytes req.Path)
  | RequestType.OpenRequest => 0

/-- `computeTime` from `devicecontext.go`:
`latestTime(dc.busyUntil, req.Timestamp).Add(requestDuration).Sub(req.Timestamp)`. -/
def computeTime (dc : DeviceContext) (req : Request) : Int :=
  latestTime dc.busyUntil req.Timestamp + requestDuration dc req - req.Timestamp

/-- The spare-time cache drain at the head of `execute` in
`devicecontext.go`: `spareTime := req.Timestamp.Sub(dc.busyUntil)`; when
positive and a cache exists, `writeBack(spareTime)`. -/
def spareTimeDrain (dc : DeviceContext) (req : Request) : DeviceContext :=
  let spareTime := req.Timestamp - dc.busyUntil
  match dc.writeBackCache with
  | none => dc
  | some c =>
    if 0 < spareTime then
      { dc with writeBackCache := some (c.writeBack dc.deviceConfig spareTime) }
    else
      dc

/-- `execute` from `devicecontext.go`: drain spare time into the cache,
set `busyUntil = req.Timestamp + computeTime(req)` (on the drained
state), then apply the per-kind state switch. The statistics/logging
block is omitted (see the file header). -/
def execute (dc : DeviceContext) (req : Request) : DeviceContext :=
  let dc1 := spareTimeDrain dc req
  let dc2 := { dc1 with busyUntil := req.Timestamp + computeTime dc1 req }
  match req.Kind with
  | RequestType.MetadataRequest => dc2
  | RequestType.AllocateRequest => dc2
  | RequestType.CloseRequest =>
    let dc3 :=
      match dc2.writeBackCache with
      | none => dc2
      | some c => { dc2 with writeBackCache := some (c.close req.Path) }
    if dc3.lastAccessedFile = req.Path then
      { dc3 with lastAccessedFile := "", firstUnseenByte := 0 }
    else
      dc3
  | RequestType.ReadRequest =>
    { dc2 with lastAccessedFile := req.Path, firstUnseenByte := req.Start + req.Size }
  | RequestType.WriteRequest =>
    let dc3 :=
      match dc2.deviceConfig.WriteStrategy with
      | WriteStrategy.FastWrite => dc2
      | WriteStrategy.SimulateWrite =>
        { dc2 with lastAccessedFile := req.Path, firstUnseenByte := req.Start + req.Size }
    match dc3.writeBackCache with
    | none => dc3
    | some c => { dc3 with writeBackCache := some (c.write req.Path req.Size) }
  | RequestType.FsyncRequest =>
    match dc2.writeBackCache with
    | none => dc2
    | some c => { dc2 with writeBackCache := some (c.writeBackFile req.Path) }
  | RequestType.OpenRequest => dc2

/-- Modelled from the spec: the `Scheduler` front end source is not in this
tree; spec §4.5/§5: `schedule` holds the lock for one
`computeTime`+`execute` and returns the delay relative to
`req.timestamp`. -/
def schedule (dc : DeviceContext) (req : Request) : Int × DeviceContext :=
  (computeTime dc req, execute dc req)

/-- Dirty bytes visible for a path through the optional cache pointer
(0 when no cache exists). -/
def dirtyBytes (dc : DeviceContext) (p : String) : Nat :=
  (dc.writeBackCache.getD []).getUnwrittenBytes p

/-- `fuse.Status` as seen by the adapter: `OK` or an error code
(`fuselayer.go` branches only on `status != fuse.OK`). -/
inductive FuseStatus where
  | OK
  | Error (code : Nat)
deriving DecidableEq, Repr

/-- Outcome of the two fallible steps of `slowFile.Read` in
`fuselayer.go`: the underlying `sf.File.Read` status, the status of
materializing the bytes (`r.Bytes`), and the byte count actually read. -/
structure ReadAttempt where
  readStatus : FuseStatus
  bytesStatus : FuseStatus
  bytesRead : Nat
deriving DecidableEq, Repr

/-- Control flow of `slowFile.Read` in `fuselayer.go`, abstracted to the
list of requests it passes to `Schedule`: on a non-OK status of either
step it returns early; otherwise it schedules one `ReadRequest` stamped
with the start instant and the bytes read. -/
def slowFileRead (path : String) (off : Nat) (start : Int) (a : ReadAttempt) :
    List Request :=
  if a.readStatus ≠ FuseStatus.OK then []
  else if a.bytesStatus ≠ FuseStatus.OK then []
  else [⟨RequestType.ReadRequest, start, path, off, a.bytesRead⟩]

/-- Control flow of `slowFile.Write` in `fuselayer.go`, abstracted to the
list of requests it passes to `Schedule`: on a non-OK status it returns
early; otherwise it schedules one `WriteRequest` with the bytes written. -/
def slowFileWrite (path : String) (off : Nat) (start : Int)
    (writeStatus : FuseStatus) (bytesWritten : Nat) : List Request :=
  if writeStatus ≠ FuseStatus.OK then []
  else [⟨RequestType.WriteRequest, start, path, off, bytesWritten⟩]

/-- A concrete validated configuration (the spec §8 scenario parameters:
seek 5 ms, window 4 KiB, 10 MB/s read/write, 1 GB/s allocate, 1 ms
metadata, write-back fsync, simulated writes), used to instantiate
universally quantified results on concrete inputs. -/
def sampleConfig : DeviceConfig :=
  ⟨4096, 5000000, 10000000, 10000000, 1000000000, 1000000,
   FsyncStrategy.WriteBackCachedFsync, WriteStrategy.SimulateWrite⟩

/-- `sampleConfig` with `fast` writes. -/
def sampleConfigFast : DeviceConfig :=
  ⟨4096, 5000000, 10000000, 10000000, 1000000000, 1000000,
   FsyncStrategy.WriteBackCachedFsync, WriteStrategy.FastWrite⟩

/-- `sampleConfig` without any write-back cache (`none` fsync strategy),
so the device context carries a nil cache pointer. -/
def sampleConfigNone : DeviceConfig :=
  ⟨4096, 5000000, 10000000, 10000000, 1000000000, 1000000,
   FsyncStrategy.NoFsync, WriteStrategy.SimulateWrite⟩

/-- A concrete cold read: 1 MB of `/a` from offset 0 at t = 0. -/
def sampleRead : Request :=
  ⟨RequestType.ReadRequest, 0, "/a", 0, 1000000⟩

/-- A concrete write: 512 kB to `/c` at offset 0 at t = 0. -/
def sampleWrite : Request :=
  ⟨RequestType.WriteRequest, 0, "/c", 0, 512000⟩

/-- A concrete CLOSE of `/a` at t = 0. -/
def sampleClose : Request :=
  ⟨RequestType.CloseRequest, 0, "/a", 0, 0⟩

namespace WriteBackCache

theorem getUnwrittenBytes_close_self (c : WriteBackCache) (p : String) :
    (c.close p).getUnwrittenBytes p = 0 := by
  induction c with
  | nil => rfl
  | cons e rest ih =>
    obtain ⟨q, d⟩ := e
    by_cases h : q = p
    · simpa [close, h] using ih
    · simpa [close, getUnwrittenBytes, h] using ih

theorem close_close (c : WriteBackCache) (p : String) :
    (c.close p).close p = c.close p := by
  induction c with
  | nil => rfl
  | cons e rest ih =>
    obtain ⟨q, d⟩ := e
    by_cases h : q = p
    · simpa [close, h] using ih
    · simp [close, h, ih]

theorem getUnwrittenBytes_write_self (c : WriteBackCache) (p : String) (n : Nat) :
    (c.write p n).getUnwrittenBytes p = c.getUnwrittenBytes p + n := by
  induction c with
  | nil => simp [write, getUnwrittenBytes]
  | cons e rest ih =>
    obtain ⟨q, d⟩ := e
    by_cases h : q = p
    · simp [write, getUnwrittenBytes, h]
    · simp [write, getUnwrittenBytes, h, ih]

end WriteBackCache

theorem latestTime_eq_max (a b : Int) : latestTime a b = max a b := by
  unfold latestTime
  split <;> omega

theorem spareTimeDrain_busyUntil (dc : DeviceContext) (req : Request) :
    (spareTimeDrain dc req).busyUntil = dc.busyUntil := by
  unfold spareTimeDrain
  split
  · rfl
  · dsimp only
    split <;> rfl

theorem spareTimeDrain_deviceConfig (dc : DeviceContext) (req : Request) :
    (spareTimeDrain dc req).deviceConfig = dc.deviceConfig := by
  unfold spareTimeDrain
  split
  · rfl
  · dsimp only
    split <;> rfl

theorem spareTimeDrain_lastAccessedFile (dc : DeviceContext) (req : Request) :
    (spareTimeDrain dc req).lastAccessedFile = dc.lastAccessedFile := by
  unfold spareTimeDrain
  split
  · rfl
  · dsimp only
    split <;> rfl

theorem spareTimeDrain_firstUnseenByte (dc : DeviceContext) (req : Request) :
    (spareTimeDrain dc req).firstUnseenByte = dc.firstUnseenByte := by
  unfold spareTimeDrain
  split
  · rfl
  · dsimp only
    split <;> rfl

theorem spareTimeDrain_of_le (dc : DeviceContext) (req : Request)
    (h : req.Timestamp ≤ dc.busyUntil) : spareTimeDrain dc req = dc := by
  unfold spareTimeDrain
  split
  · rfl
  · dsimp only
    split
    · next hlt => exact absurd hlt (by omega)
    · rfl

theorem computeSeekTime_nonneg (dc : DeviceContext) (req : Request)
    (hs : 0 ≤ dc.deviceConfig.SeekTime) : 0 ≤ computeSeekTime dc req := by
  unfold computeSeekTime
  split
  · exact hs
  · exact le_refl 0

theorem requestDuration_nonneg (dc : DeviceContext) (req : Request)
    (hs : 0 ≤ dc.deviceConfig.SeekTime)
    (hm : 0 ≤ dc.deviceConfig.MetadataOpTime) :
    0 ≤ requestDuration dc req := by
  have hseek := computeSeekTime_nonneg dc req hs
  have hrt : (0 : Int) ≤ dc.deviceConfig.ReadTime req.Size := Int.natCast_nonneg _
  have hwt : (0 : Int) ≤ dc.deviceConfig.WriteTime req.Size := Int.natCast_nonneg _
  have hat : (0 : Int) ≤ dc.deviceConfig.AllocateTime req.Size := Int.natCast_nonneg _
  have hwt2 : (0 : Int) ≤ dc.deviceConfig.WriteTime
      ((dc.writeBackCache.getD []).getUnwrittenBytes req.Path) := Int.natCast_nonneg _
  unfold requestDuration
  rcases hk : req.Kind <;> simp only []
  · omega
  · rcases hw : dc.deviceConfig.WriteStrategy <;> simp only []
    · omega
    · omega
  · omega
  · omega
  · rcases hf : dc.deviceConfig.FsyncStrategy <;> simp only []
    · omega
    · omega
    · omega
  · omega
  · omega

theorem execute_deviceConfig (dc : DeviceContext) (req : Request) :
    (execute dc req).deviceConfig = dc.deviceConfig := by
  have h1 := spareTimeDrain_deviceConfig dc req
  unfold execute
  dsimp only
  split
  · exact h1
  · exact h1
  · split
    · split <;> exact h1
    · split <;> exact h1
  · exact h1
  · split <;> split <;> exact h1
  · split <;> exact h1
  · exact h1

theorem execute_busyUntil (dc : DeviceContext) (req : Request) :
    (execute dc req).busyUntil =
      req.Timestamp + computeTime (spareTimeDrain dc req) req := by
  unfold execute
  dsimp only
  split
  · rfl
  · rfl
  · split
    · split <;> rfl
    · split <;> rfl
  · rfl
  · split <;> split <;> rfl
  · split <;> rfl
  · rfl

/-- C1: for every request, `computeTime` returns exactly
`max(busyUntil, req.Timestamp) + requestDuration − req.Timestamp`, where
`requestDuration` is the per-kind duration; in particular, when
`busyUntil ≤ req.Timestamp` and the per-kind duration is 0 the returned
delay is zero. -/
theorem computeTime_latest_formula (dc : DeviceContext) (req : Request) :
    computeTime dc req =
      max dc.busyUntil req.Timestamp + requestDuration dc req - req.Timestamp ∧
    (dc.busyUntil ≤ req.Timestamp → requestDuration dc req = 0 →
      computeTime dc req = 0) := by
  constructor
  · rw [computeTime, latestTime_eq_max]
  · intro h1 h2
    rw [computeTime, latestTime_eq_max, h2]
    omega

/-- Witness for C1 at a concrete input: an unknown-kind request (per-kind
duration 0) on a fresh device (`busyUntil = 0`) at t = 0 is delayed 0. -/
theorem computeTime_latest_formula_witness :
    computeTime (newDeviceContext sampleConfig)
      ⟨RequestType.OpenRequest, 0, "/a", 0, 0⟩ = 0 :=
  (computeTime_latest_formula _ _).2 (by decide) (by decide)

/-- C2: for every request of every kind and every device state, if the
config has non-negative `SeekTime` and `MetadataOpTime` and positive
bandwidths, the duration returned by `computeTime` (and hence the delay
returned by `schedule`) is non-negative. -/
theorem computeTime_nonneg (dc : DeviceContext) (req : Request)
    (hs : 0 ≤ dc.deviceConfig.SeekTime)
    (hm : 0 ≤ dc.deviceConfig.MetadataOpTime)
    (hr : 0 < dc.deviceConfig.ReadBytesPerSecond)
    (hw : 0 < dc.deviceConfig.WriteBytesPerSecond)
    (ha : 0 < dc.deviceConfig.AllocateBytesPerSecond) :
    0 ≤ computeTime dc req ∧ 0 ≤ (schedule dc req).1 := by
  have hd := requestDuration_nonneg dc req hs hm
  have h1 : 0 ≤ computeTime dc req := by
    rw [computeTime, latestTime_eq_max]
    omega
  exact ⟨h1, h1⟩

/-- Witness for C2 at a concrete input: the sample cold read on a fresh
device under the sample config. -/
theorem computeTime_nonneg_witness :
    0 ≤ computeTime (newDeviceContext sampleConfig) sampleRead ∧
    0 ≤ (schedule (newDeviceContext sampleConfig) sampleRead).1 :=
  computeTime_nonneg _ _ (by decide) (by decide) (by decide) (by decide)
    (by decide)

/-- C3: `busyUntil` is non-decreasing across `execute`, for every device
state and every request (any kind, any timestamp, including timestamps
earlier than `busyUntil`), assuming non-negative config durations. -/
theorem execute_busyUntil_monotone (dc : DeviceContext) (req : Request)
    (hs : 0 ≤ dc.deviceConfig.SeekTime)
    (hm : 0 ≤ dc.deviceConfig.MetadataOpTime) :
    dc.busyUntil ≤ (execute dc req).busyUntil := by
  rw [execute_busyUntil]
  have hcfg := spareTimeDrain_deviceConfig dc req
  have hbusy := spareTimeDrain_busyUntil dc req
  have hd : 0 ≤ requestDuration (spareTimeDrain dc req) req :=
    requestDuration_nonneg _ req (by rw [hcfg]; exact hs) (by rw [hcfg]; exact hm)
  rw [computeTime, latestTime_eq_max]
  omega

/-- Witness for C3 at a concrete input: the sample cold read on a fresh
device under the sample config. -/
theorem execute_busyUntil_monotone_witness :
    (newDeviceContext sampleConfig).busyUntil ≤
      (execute (newDeviceContext sampleConfig) sampleRead).busyUntil :=
  execute_busyUntil_monotone _ _ (by decide) (by decide)

/-- C4: `computeSeekTime` returns the configured `SeekTime` exactly when
the request touches a different file than the tracked one (including the
initial empty state), or seeks backwards, or jumps at least `SeekWindow`
bytes ahead; otherwise zero. In particular, `req.Start = firstUnseenByte`
on the tracked file within a positive seek window is sequential (no
seek), and with `SeekWindow = 0` every non-backward access on the
tracked file still pays a seek. -/
theorem computeSeekTime_characterization (dc : DeviceContext) (req : Request) :
    ((dc.lastAccessedFile ≠ req.Path ∨ req.Start < dc.firstUnseenByte ∨
        dc.deviceConfig.SeekWindow ≤ req.Start - dc.firstUnseenByte) →
      computeSeekTime dc req = dc.deviceConfig.SeekTime) ∧
    ((dc.lastAccessedFile = req.Path ∧ dc.firstUnseenByte ≤ req.Start ∧
        req.Start - dc.firstUnseenByte < dc.deviceConfig.SeekWindow) →
      computeSeekTime dc req = 0) ∧
    (dc.lastAccessedFile = req.Path → req.Start = dc.firstUnseenByte →
      0 < dc.deviceConfig.SeekWindow → computeSeekTime dc req = 0) ∧
    (dc.deviceConfig.SeekWindow = 0 → dc.lastAccessedFile = req.Path →
      dc.firstUnseenByte ≤ req.Start →
      computeSeekTime dc req = dc.deviceConfig.SeekTime) := by
  unfold computeSeekTime
  split
  · next hcond =>
    refine ⟨fun _ => rfl, ?_, ?_, fun _ _ _ => rfl⟩
    · rintro ⟨h1, h2, h3⟩
      rcases hcond with hA | hB | hC
      · exact absurd h1 hA
      · omega
      · omega
    · intro h1 h2 h3
      rcases hcond with hA | hB | hC
      · exact absurd h1 hA
      · omega
      · omega
  · next hcond =>
    push_neg at hcond
    obtain ⟨hA, hB, hC⟩ := hcond
    refine ⟨?_, fun _ => rfl, fun _ _ _ => rfl, ?_⟩
    · rintro (h | h | h)
      · exact absurd hA h
      · omega
      · omega
    · intro hw h1 h2
      omega

/-- Witness for C4 at a concrete input: with 100 bytes already seen on
`/a` under the sample config, re-reading `/a` from offset 100 incurs no
seek. -/
theorem computeSeekTime_characterization_witness :
    computeSeekTime ⟨sampleConfig, 100, "/a", 0, some []⟩
      ⟨RequestType.ReadRequest, 0, "/a", 100, 10⟩ = 0 :=
  (computeSeekTime_characterization _ _).2.2.1 (by decide) (by decide) (by decide)

/-- C5 counterexample: contrary to the claim, when the underlying I/O
fails (non-OK status) the adapter returns early and never calls
`schedule` — the list of scheduled requests is empty for both a failed
read and a failed write. -/
theorem adapter_error_no_schedule_counterexample :
    slowFileRead "/a" 0 0 ⟨FuseStatus.Error 5, FuseStatus.OK, 0⟩ = [] ∧
    slowFileWrite "/a" 0 0 (FuseStatus.Error 5) 0 = [] := by
  exact ⟨rfl, rfl⟩

/-- C5 amended: the adapter calls `schedule` only on the all-OK path
(with the byte count actually transferred); on any non-OK status of the
underlying I/O it returns early without calling `schedule` at all. -/
theorem adapter_schedule_on_ok_only (path : String) (off : Nat) (start : Int)
    (a : ReadAttempt) (ws : FuseStatus) (n : Nat) :
    (a.readStatus ≠ FuseStatus.OK → slowFileRead path off start a = []) ∧
    (a.readStatus = FuseStatus.OK → a.bytesStatus = FuseStatus.OK →
      slowFileRead path off start a =
        [⟨RequestType.ReadRequest, start, path, off, a.bytesRead⟩]) ∧
    (ws ≠ FuseStatus.OK → slowFileWrite path off start ws n = []) ∧
    (ws = FuseStatus.OK →
      slowFileWrite path off start ws n =
        [⟨RequestType.WriteRequest, start, path, off, n⟩]) := by
  refine ⟨?_, ?_, ?_, ?_⟩ <;> intros <;> simp_all [slowFileRead, slowFileWrite]

/-- Witness for C5's amended claim at a concrete input: a fully
successful 7-byte read schedules exactly one matching `ReadRequest`. -/
theorem adapter_schedule_on_ok_only_witness :
    slowFileRead "/a" 0 0 ⟨FuseStatus.OK, FuseStatus.OK, 7⟩ =
      [⟨RequestType.ReadRequest, 0, "/a", 0, 7⟩] :=
  (adapter_schedule_on_ok_only "/a" 0 0 ⟨FuseStatus.OK, FuseStatus.OK, 7⟩
    FuseStatus.OK 7).2.1 rfl rfl

/-- C6 counterexample: contrary to the claim, scheduling a request of
unknown kind (`OpenRequest` reaching the device context) is not a pure
no-op with zero delay: on a device busy until t = 10, an unknown request
at t = 0 is delayed 10 ns (the busy wait), and on an idle device an
unknown request at t = 10 advances `busyUntil` from 0 to 10. -/
theorem unknown_kind_not_noop_counterexample :
    computeTime ⟨sampleConfigNone, 0, "", 10, none⟩
        ⟨RequestType.OpenRequest, 0, "x", 0, 0⟩ = 10 ∧
    (10 : Int) ≠ 0 ∧
    (execute ⟨sampleConfigNone, 0, "", 0, none⟩
        ⟨RequestType.OpenRequest, 10, "x", 0, 0⟩).busyUntil = 10 ∧
    (⟨sampleConfigNone, 0, "", 0, none⟩ : DeviceContext).busyUntil = 0 := by
  refine ⟨by decide, by decide, by decide, by decide⟩

/-- C6 amended: an unknown request kind contributes zero per-kind
duration, but is otherwise scheduled like any request: the returned
delay is the busy wait `max(busyUntil, timestamp) − timestamp`,
`busyUntil` advances to `max(busyUntil, timestamp)`, the sequentiality
state is unchanged, and the cache is changed only by the spare-time
drain that every request performs (in particular it is untouched when
the request does not arrive after `busyUntil`). -/
theorem execute_unknown_kind_spec (dc : DeviceContext) (req : Request)
    (hk : req.Kind = RequestType.OpenRequest) :
    computeTime dc req = max dc.busyUntil req.Timestamp - req.Timestamp ∧
    (execute dc req).busyUntil = max dc.busyUntil req.Timestamp ∧
    (execute dc req).lastAccessedFile = dc.lastAccessedFile ∧
    (execute dc req).firstUnseenByte = dc.firstUnseenByte ∧
    (execute dc req).writeBackCache = (spareTimeDrain dc req).writeBackCache ∧
    (req.Timestamp ≤ dc.busyUntil →
      execute dc req = { dc with busyUntil := max dc.busyUntil req.Timestamp }) := by
  have hdur : ∀ s : DeviceContext, requestDuration s req = 0 := by
    intro s
    simp [requestDuration, hk]
  have hex : execute dc req =
      { spareTimeDrain dc req with
        busyUntil := req.Timestamp + computeTime (spareTimeDrain dc req) req } := by
    unfold execute
    dsimp only
    simp only [hk]
  have hbusy := spareTimeDrain_busyUntil dc req
  have hcomp1 : computeTime (spareTimeDrain dc req) req =
      max dc.busyUntil req.Timestamp - req.Timestamp := by
    rw [computeTime, latestTime_eq_max, hdur, hbusy]
    ring
  have hcomp0 : computeTime dc req = max dc.busyUntil req.Timestamp - req.Timestamp := by
    rw [computeTime, latestTime_eq_max, hdur]
    ring
  refine ⟨hcomp0, ?_, ?_, ?_, ?_, ?_⟩
  · rw [hex]
    dsimp only
    rw [hcomp1]
    ring
  · rw [hex]
    exact spareTimeDrain_lastAccessedFile dc req
  · rw [hex]
    exact spareTimeDrain_firstUnseenByte dc req
  · rw [hex]
  · intro ht
    have h1 : req.Timestamp + computeTime dc req = max dc.busyUntil req.Timestamp := by
      rw [hcomp0]
      ring
    rw [hex, spareTimeDrain_of_le dc req ht, h1]

/-- Witness for C6's amended claim at a concrete input: a busy idle-free
device (`busyUntil = 10`), unknown request at t = 0. -/
theorem execute_unknown_kind_spec_witness :
    execute ⟨sampleConfigNone, 0, "", 10, none⟩
        ⟨RequestType.OpenRequest, 0, "x", 0, 0⟩ =
      { (⟨sampleConfigNone, 0, "", 10, none⟩ : DeviceContext) with
        busyUntil := max 10 0 } :=
  (execute_unknown_kind_spec ⟨sampleConfigNone, 0, "", 10, none⟩
    ⟨RequestType.OpenRequest, 0, "x", 0, 0⟩ rfl).2.2.2.2.2 (by decide)

/-- C7: a WRITE executed under write strategy `fast` leaves the device's
sequentiality state (`lastAccessedFile` and `firstUnseenByte`) exactly
as it was, for every prior device state. -/
theorem execute_fast_write_preserves_sequentiality (dc : DeviceContext)
    (req : Request) (hk : req.Kind = RequestType.WriteRequest)
    (hw : dc.deviceConfig.WriteStrategy = WriteStrategy.FastWrite) :
    (execute dc req).lastAccessedFile = dc.lastAccessedFile ∧
    (execute dc req).firstUnseenByte = dc.firstUnseenByte := by
  have hdl := spareTimeDrain_lastAccessedFile dc req
  have hdf := spareTimeDrain_firstUnseenByte dc req
  unfold execute
  dsimp only
  simp only [hk, spareTimeDrain_deviceConfig, hw]
  split
  · exact ⟨hdl, hdf⟩
  · exact ⟨hdl, hdf⟩

/-- Witness for C7 at a concrete input: the sample write on a fresh
device under the fast-write sample config. -/
theorem execute_fast_write_preserves_sequentiality_witness :
    (execute (newDeviceContext sampleConfigFast) sampleWrite).lastAccessedFile =
        (newDeviceContext sampleConfigFast).lastAccessedFile ∧
    (execute (newDeviceContext sampleConfigFast) sampleWrite).firstUnseenByte =
        (newDeviceContext sampleConfigFast).firstUnseenByte :=
  execute_fast_write_preserves_sequentiality _ _ (by decide) (by decide)

theorem execute_close_fields (dc : DeviceContext) (req : Request)
    (hk : req.Kind = RequestType.CloseRequest) :
    (execute dc req).writeBackCache =
      ((spareTimeDrain dc req).writeBackCache).map (fun c => c.close req.Path) ∧
    (execute dc req).lastAccessedFile =
      (if dc.lastAccessedFile = req.Path then "" else dc.lastAccessedFile) ∧
    (execute dc req).firstUnseenByte =
      (if dc.lastAccessedFile = req.Path then 0 else dc.firstUnseenByte) := by
  have hdl := spareTimeDrain_lastAccessedFile dc req
  have hdf := spareTimeDrain_firstUnseenByte dc req
  unfold execute
  dsimp only
  simp only [hk]
  split <;> split <;> simp_all

/-- C8: after executing CLOSE of path `p`, the write-back cache entry for
`p` is gone (`dirtyBytes p = 0`); if `lastAccessedFile` was `p` the
sequentiality state is cleared (`""`, 0), and if it was some other path
the sequentiality state is unchanged. -/
theorem execute_close_spec (dc : DeviceContext) (req : Request)
    (hk : req.Kind = RequestType.CloseRequest) :
    dirtyBytes (execute dc req) req.Path = 0 ∧
    (dc.lastAccessedFile = req.Path →
      (execute dc req).lastAccessedFile = "" ∧
      (execute dc req).firstUnseenByte = 0) ∧
    (dc.lastAccessedFile ≠ req.Path →
      (execute dc req).lastAccessedFile = dc.lastAccessedFile ∧
      (execute dc req).firstUnseenByte = dc.firstUnseenByte) := by
  obtain ⟨hc, hl, hf⟩ := execute_close_fields dc req hk
  refine ⟨?_, ?_, ?_⟩
  · unfold dirtyBytes
    rw [hc]
    rcases (spareTimeDrain dc req).writeBackCache with _ | c
    · rfl
    · exact WriteBackCache.getUnwrittenBytes_close_self c req.Path
  · intro h
    rw [hl, hf, if_pos h, if_pos h]
    exact ⟨rfl, rfl⟩
  · intro h
    rw [hl, hf, if_neg h, if_neg h]
    exact ⟨rfl, rfl⟩

/-- Witness for C8 at a concrete input: closing `/a` on a device that
tracked `/a` with 5 dirty bytes cached leaves 0 dirty bytes for `/a`. -/
theorem execute_close_spec_witness :
    dirtyBytes
        (execute ⟨sampleConfig, 100, "/a", 0, some [("/a", 5)]⟩ sampleClose)
        sampleClose.Path = 0 :=
  (execute_close_spec ⟨sampleConfig, 100, "/a", 0, some [("/a", 5)]⟩
    sampleClose rfl).1

/-- C9 counterexample: contrary to the claim, two consecutive CLOSEs of a
path do not produce the same final device state as one: each CLOSE
charges `MetadataOpTime`, so on a fresh device under the sample config
(1 ms metadata time) one CLOSE leaves `busyUntil = 1000000` while two
leave `busyUntil = 2000000`. -/
theorem close_twice_not_idempotent_counterexample :
    execute (execute (newDeviceContext sampleConfig) sampleClose) sampleClose ≠
      execute (newDeviceContext sampleConfig) sampleClose ∧
    (execute (execute (newDeviceContext sampleConfig) sampleClose)
        sampleClose).busyUntil = 2000000 ∧
    (execute (newDeviceContext sampleConfig) sampleClose).busyUntil = 1000000 := by
  refine ⟨by decide, by decide, by decide⟩

/-- C9 amended: executing the same CLOSE request twice produces the same
final sequentiality state and cache as executing it once; only
`busyUntil` differs, by exactly one extra `MetadataOpTime` (assuming the
validated config's `MetadataOpTime ≥ 0`). -/
theorem execute_close_idempotent_mod_busyUntil (dc : DeviceContext)
    (req : Request) (hk : req.Kind = RequestType.CloseRequest)
    (hm : 0 ≤ dc.deviceConfig.MetadataOpTime) :
    (execute (execute dc req) req).busyUntil =
        (execute dc req).busyUntil + dc.deviceConfig.MetadataOpTime ∧
    (execute (execute dc req) req).lastAccessedFile =
        (execute dc req).lastAccessedFile ∧
    (execute (execute dc req) req).firstUnseenByte =
        (execute dc req).firstUnseenByte ∧
    (execute (execute dc req) req).writeBackCache =
        (execute dc req).writeBackCache := by
  have hdur : ∀ s : DeviceContext,
      requestDuration s req = s.deviceConfig.MetadataOpTime := by
    intro s
    simp [requestDuration, hk]
  have hcfg1 := execute_deviceConfig dc req
  have hb1 : (execute dc req).busyUntil =
      max dc.busyUntil req.Timestamp + dc.deviceConfig.MetadataOpTime := by
    rw [execute_busyUntil, computeTime, latestTime_eq_max, hdur,
      spareTimeDrain_busyUntil, spareTimeDrain_deviceConfig]
    ring
  have hts : req.Timestamp ≤ (execute dc req).busyUntil := by
    rw [hb1]
    have h := le_max_right dc.busyUntil req.Timestamp
    omega
  have hdrain2 : spareTimeDrain (execute dc req) req = execute dc req :=
    spareTimeDrain_of_le _ _ hts
  have hbusy2 : (execute (execute dc req) req).busyUntil =
      (execute dc req).busyUntil + dc.deviceConfig.MetadataOpTime := by
    rw [execute_busyUntil, hdrain2, computeTime, latestTime_eq_max, hdur, hcfg1]
    omega
  obtain ⟨hc1, hl1, hf1⟩ := execute_close_fields dc req hk
  obtain ⟨hc2, hl2, hf2⟩ := execute_close_fields (execute dc req) req hk
  rw [hdrain2] at hc2
  refine ⟨hbusy2, ?_, ?_, ?_⟩
  · rw [hl2, hl1]
    by_cases h : dc.lastAccessedFile = req.Path
    · rw [if_pos h]
      split <;> rfl
    · rw [if_neg h, if_neg h]
  · rw [hf2, hl1, hf1]
    by_cases h : dc.lastAccessedFile = req.Path
    · rw [if_pos h, if_pos h]
      split <;> rfl
    · rw [if_neg h, if_neg h, if_neg h]
  · rw [hc2, hc1]
    rcases (spareTimeDrain dc req).writeBackCache with _ | c
    · rfl
    · simp [WriteBackCache.close_close]

/-- Witness for C9's amended claim at a concrete input: the second CLOSE
of `/a` on a fresh device adds exactly the 1 ms metadata time. -/
theorem execute_close_idempotent_mod_busyUntil_witness :
    (execute (execute (newDeviceContext sampleConfig) sampleClose)
        sampleClose).busyUntil =
      (execute (newDeviceContext sampleConfig) sampleClose).busyUntil +
        (newDeviceContext sampleConfig).deviceConfig.MetadataOpTime :=
  (execute_close_idempotent_mod_busyUntil _ _ rfl (by decide)).1

theorem execute_write_cache (dc : DeviceContext) (req : Request)
    (hk : req.Kind = RequestType.WriteRequest) :
    (execute dc req).writeBackCache =
      ((spareTimeDrain dc req).writeBackCache).map
        (fun c => c.write req.Path req.Size) := by
  unfold execute
  dsimp only
  simp only [hk]
  split <;> split <;> simp_all

/-- C10 counterexample: contrary to the claim's universal form, a WRITE
arriving after `busyUntil` does not leave `dirtyBytes[path]` at its prior
value plus `req.Size`: the spare-time drain of `execute` runs first. On a
device idle since t = 0 with 1000 dirty bytes on `/c` under the sample
config, a 512000-byte WRITE to `/c` at t = 1 s drains the 1000 bytes
(10 MB/s for 1 s of spare time) before adding its own, leaving 512000
dirty bytes instead of the claimed 513000. -/
theorem write_after_busy_drains_counterexample :
    dirtyBytes
        (execute ⟨sampleConfig, 0, "", 0, some [("/c", 1000)]⟩
          ⟨RequestType.WriteRequest, 1000000000, "/c", 0, 512000⟩) "/c" =
      512000 ∧
    dirtyBytes ⟨sampleConfig, 0, "", 0, some [("/c", 1000)]⟩ "/c" + 512000 =
      513000 ∧
    (512000 : Nat) ≠ 513000 := by
  refine ⟨by decide, by decide, by decide⟩

/-- C10 amended: when a write-back cache is present, executing a WRITE
adds `req.Size` to the dirty bytes of `req.Path` as they stand after the
spare-time drain that every request performs (so exactly `Size` plus the
prior count whenever the request does not arrive after `busyUntil`),
regardless of the write strategy; under `simulate` the write is in
addition charged synchronously (seek plus `Size/writeBytesPerSecond` on
top of the busy wait), and a subsequent FSYNC of that path under
`writeback` is charged for those same bytes again. -/
theorem execute_write_adds_dirty_after_drain (dc : DeviceContext)
    (req : Request) (c : WriteBackCache)
    (hk : req.Kind = RequestType.WriteRequest)
    (hc : dc.writeBackCache = some c) :
    dirtyBytes (execute dc req) req.Path =
      dirtyBytes (spareTimeDrain dc req) req.Path + req.Size ∧
    (req.Timestamp ≤ dc.busyUntil →
      dirtyBytes (execute dc req) req.Path =
        dirtyBytes dc req.Path + req.Size) ∧
    (dc.deviceConfig.WriteStrategy = WriteStrategy.SimulateWrite →
      computeTime dc req =
        latestTime dc.busyUntil req.Timestamp +
          (computeSeekTime dc req + dc.deviceConfig.WriteTime req.Size) -
          req.Timestamp) ∧
    (dc.deviceConfig.FsyncStrategy = FsyncStrategy.WriteBackCachedFsync →
      ∀ ts2 : Int,
        requestDuration (execute dc req)
            ⟨RequestType.FsyncRequest, ts2, req.Path, 0, 0⟩ =
          dc.deviceConfig.SeekTime +
            dc.deviceConfig.WriteTime
              (dirtyBytes (spareTimeDrain dc req) req.Path + req.Size)) := by
  have h1 : ∃ c1 : WriteBackCache,
      (spareTimeDrain dc req).writeBackCache = some c1 := by
    unfold spareTimeDrain
    rw [hc]
    dsimp only
    split
    · exact ⟨_, rfl⟩
    · exact ⟨c, hc⟩
  obtain ⟨c1, hc1⟩ := h1
  have hcacheE : (execute dc req).writeBackCache =
      some (c1.write req.Path req.Size) := by
    rw [execute_write_cache dc req hk, hc1]
    rfl
  have hmain : dirtyBytes (execute dc req) req.Path =
      dirtyBytes (spareTimeDrain dc req) req.Path + req.Size := by
    unfold dirtyBytes
    rw [hcacheE, hc1]
    exact WriteBackCache.getUnwrittenBytes_write_self c1 req.Path req.Size
  refine ⟨hmain, ?_, ?_, ?_⟩
  · intro ht
    rw [hmain, spareTimeDrain_of_le dc req ht]
  · intro hsim
    have hdur : requestDuration dc req =
        computeSeekTime dc req + dc.deviceConfig.WriteTime req.Size := by
      simp [requestDuration, hk, hsim]
    rw [computeTime, hdur]
  · intro hfs ts2
    have hcfg := execute_deviceConfig dc req
    simp [requestDuration, hcfg, hfs, hcacheE,
      WriteBackCache.getUnwrittenBytes_write_self, dirtyBytes, hc1]

/-- Witness for C10's amended claim at a concrete input: the drain case
itself — the WRITE to `/c` at t = 1 s on the device with 1000 dirty
bytes adds its 512000 bytes to the post-drain dirty count. -/
theorem execute_write_adds_dirty_after_drain_witness :
    dirtyBytes
        (execute ⟨sampleConfig, 0, "", 0, some [("/c", 1000)]⟩
          ⟨RequestType.WriteRequest, 1000000000, "/c", 0, 512000⟩) "/c" =
      dirtyBytes
          (spareTimeDrain ⟨sampleConfig, 0, "", 0, some [("/c", 1000)]⟩
            ⟨RequestType.WriteRequest, 1000000000, "/c", 0, 512000⟩) "/c" +
        512000 :=
  (execute_write_adds_dirty_after_drain
    ⟨sampleConfig, 0, "", 0, some [("/c", 1000)]⟩
    ⟨RequestType.WriteRequest, 1000000000, "/c", 0, 512000⟩
    [("/c", 1000)] rfl rfl).1
